import Mathlib

/-!
# GHOST module runtime — shallow embedding and verification

This file embeds the module-runtime subsystem of the GHOST repository in
Lean 4 and proves (or refutes) the specified properties about it.

Embedded source files:
* `src/main/sync.ts` — `SyncManager` / `defineTable` (the Schema Registrar).
* `src/modules/echo/migration.ts` — `ensureEchoLogSchema` (forward-only
  migration of the `echo_log` table).
* `src/main/loader.ts` — `ModuleLoader` (manifest registration, the module
  context, settings get/patch).
* `src/main/modules.ts` — `ModuleRegistry` (the record-of-functions variant:
  `registerModule`, `loadModules`, `listModules`, `invoke`).
* `src/main/ipc.ts` — the UI-boundary handlers `ghost:invoke-module` and
  `ghost:patch-module-settings`.
* `src/modules/_schema.ts` — the manifest shape and its structural validation.

Conventions of the embedding: JavaScript objects whose field sets matter are
modelled as structures (plus an explicit key list where presence-vs-undefined
matters); `Map`s and the SQLite key/value tables are modelled as association
lists; SQL DDL execution is modelled as explicit state passing on a table
store; a function that `throw`s is modelled with `Except`.
-/

/-- A JSON value, used for module settings documents and for the
JSON-schema objects modules declare (`settingsSchema`). -/
inductive Json where
  | null
  | bool (b : Bool)
  | num (n : Int)
  | str (s : String)
  | arr (elems : List Json)
  | obj (fields : List (String × Json))

/-- First value bound to `k` in an association list (`Map.get` semantics). -/
def lookupAssoc {α : Type} (l : List (String × α)) (k : String) : Option α :=
  (l.find? (fun p => p.1 == k)).map (fun p => p.2)

/-- The `Map.set` / `INSERT OR REPLACE` semantics: replace the first binding of
`k` in place, or append a fresh binding at the end. -/
def setAssoc {α : Type} : List (String × α) → String → α → List (String × α)
  | [], k, v => [(k, v)]
  | p :: rest, k, v => if p.1 == k then (k, v) :: rest else p :: setAssoc rest k v

-- ---------------------------------------------------------------------------
-- Schema Registrar — `defineTable` from src/main/sync.ts
-- ---------------------------------------------------------------------------

/-- One column definition of a SQLite `CREATE TABLE` statement, as the engine
parses it from the comma-separated DDL text handed to `db.exec`. -/
structure ColumnDef where
  name : String
  sqlType : String
  primaryKey : Bool
  notNull : Bool
  dflt : Option Int
deriving DecidableEq

/-- The store of created tables: physical table name to parsed column list.
This is the state `db.exec` of a `CREATE TABLE` statement acts on. -/
abbrev SchemaDb : Type := List (String × List ColumnDef)

/-- Executes `CREATE TABLE IF NOT EXISTS name (cols)`: a no-op when `name` already
exists, otherwise records the new table with exactly `cols`. -/
def execCreateTableIfNotExists (db : SchemaDb) (name : String)
    (cols : List ColumnDef) : SchemaDb :=
  if (lookupAssoc db name).isSome then db else db ++ [(name, cols)]

/-- Computes `` `${moduleId}_${tableName}` `` — the physical table name computed by
both `defineTable` and `SyncManager.registerTable`. -/
def fullTableName (moduleId tableName : String) : String :=
  moduleId ++ "_" ++ tableName

/-- The five canonical columns of the `canonicalColumns` template literal in
`defineTable`: `id TEXT PRIMARY KEY`, `user_id TEXT NOT NULL`,
`_ps_version INTEGER DEFAULT 0`, `updated_at INTEGER NOT NULL`,
`deleted INTEGER DEFAULT 0`. -/
def canonicalColumns : List ColumnDef :=
  [⟨"id", "TEXT", true, false, none⟩,
   ⟨"user_id", "TEXT", false, true, none⟩,
   ⟨"_ps_version", "INTEGER", false, false, some 0⟩,
   ⟨"updated_at", "INTEGER", false, true, none⟩,
   ⟨"deleted", "INTEGER", false, false, some 0⟩]

/-- The `canonicalColumns` template literal of `defineTable`, verbatim. -/
def canonicalColumnsText : String :=
  "\n    id TEXT PRIMARY KEY,\n    user_id TEXT NOT NULL,\n    _ps_version INTEGER DEFAULT 0,\n    updated_at INTEGER NOT NULL,\n    deleted INTEGER DEFAULT 0\n  "

/-- Renders one column back to its DDL text. -/
def renderColumn (c : ColumnDef) : String :=
  c.name ++ " " ++ c.sqlType
    ++ (if c.primaryKey then " PRIMARY KEY" else "")
    ++ (if c.notNull then " NOT NULL" else "")
    ++ (match c.dflt with
        | some n => " DEFAULT " ++ toString n
        | none => "")

/-- Renders the module-supplied column list back to the comma-separated
`userColumns` DDL string the source function receives. -/
def renderColumns (cs : List ColumnDef) : String :=
  String.intercalate ", " (cs.map renderColumn)

/-- The `fullSchema` template literal of `defineTable`: the
`CREATE TABLE IF NOT EXISTS` statement followed by the three
`CREATE INDEX IF NOT EXISTS` statements. -/
def fullSchemaText (ftn : String) (userColumnsText : String) : String :=
  "\n    CREATE TABLE IF NOT EXISTS " ++ ftn ++ " (\n      "
    ++ canonicalColumnsText ++ ",\n      " ++ userColumnsText
    ++ "\n    );\n    CREATE INDEX IF NOT EXISTS idx_" ++ ftn
    ++ "_user_id ON " ++ ftn
    ++ "(user_id);\n    CREATE INDEX IF NOT EXISTS idx_" ++ ftn
    ++ "_updated_at ON " ++ ftn
    ++ "(updated_at);\n    CREATE INDEX IF NOT EXISTS idx_" ++ ftn
    ++ "_deleted ON " ++ ftn ++ "(deleted);\n  "

/-- Embeds `defineTable(moduleId, tableName, userColumns, db)` from
`src/main/sync.ts`: computes the physical table name, executes the combined
schema (canonical columns prepended to the module-supplied columns), and
returns the value the source function returns — the `fullSchema` DDL string.
The module-supplied columns are passed already parsed; `renderColumns`
recovers the raw `userColumns` string for the returned DDL text. -/
def defineTable (moduleId tableName : String) (userColumns : List ColumnDef)
    (db : SchemaDb) : String × SchemaDb :=
  let ftn := fullTableName moduleId tableName
  let fullSchema := fullSchemaText ftn (renderColumns userColumns)
  (fullSchema, execCreateTableIfNotExists db ftn (canonicalColumns ++ userColumns))

-- ---------------------------------------------------------------------------
-- Forward-only migration — ensureEchoLogSchema from src/modules/echo/migration.ts
-- ---------------------------------------------------------------------------

/-- A SQLite cell value, as far as the migration inspects it. -/
inductive SqlValue where
  | null
  | int (n : Int)
  | text (s : String)
deriving DecidableEq

/-- One row of `echo_log`, keyed by column name. -/
abbrev EchoRow : Type := List (String × SqlValue)

/-- The `echo_log` table: its column names (in order) and its rows. -/
structure EchoTable where
  cols : List String
  rows : List EchoRow
deriving DecidableEq

/-- Result object of `ensureEchoLogSchema`. -/
structure MigrationResult where
  migrated : Bool
  details : List String
deriving DecidableEq

/-- Column-name membership (`existingColumns.has(column)`). -/
def hasCol (cols : List String) (c : String) : Bool :=
  cols.any (fun x => x == c)

/-- Reads a cell; SQL yields `NULL` for a value never written. -/
def rowGet (r : EchoRow) (c : String) : SqlValue :=
  match r.find? (fun p => p.1 == c) with
  | some p => p.2
  | none => SqlValue.null

/-- Overwrites the binding of column `c` in a row. -/
def rowSet (r : EchoRow) (c : String) (v : SqlValue) : EchoRow :=
  r.map (fun p => if p.1 == c then (p.1, v) else p)

/-- Executes `ALTER TABLE echo_log ADD COLUMN c ... DEFAULT d`: appends the column and
gives every existing row the constant default. -/
def alterAdd (t : EchoTable) (c : String) (d : SqlValue) : EchoTable :=
  { cols := t.cols ++ [c], rows := t.rows.map (fun r => r ++ [(c, d)]) }

/-- Executes `UPDATE echo_log SET c = v WHERE cond(c)`. -/
def updateWhere (t : EchoTable) (c : String) (cond : SqlValue → Bool)
    (v : SqlValue) : EchoTable :=
  { t with rows := t.rows.map (fun r => if cond (rowGet r c) then rowSet r c v else r) }

/-- Decides `x IS NULL OR x = ''`. -/
def isNullOrEmptyText (v : SqlValue) : Bool :=
  match v with
  | SqlValue.null => true
  | SqlValue.text s => s == ""
  | _ => false

/-- Decides `x IS NULL`. -/
def isNullValue (v : SqlValue) : Bool :=
  match v with
  | SqlValue.null => true
  | _ => false

/-- Decides `x IS NULL OR x = 0`. -/
def isNullOrZero (v : SqlValue) : Bool :=
  match v with
  | SqlValue.null => true
  | SqlValue.int n => n == 0
  | _ => false

/-- Computes `COALESCE(v, d)`. -/
def coalesce (v d : SqlValue) : SqlValue :=
  match v with
  | SqlValue.null => d
  | _ => v

/-- The `requiredColumns` record of the migration, with each column's
constant `DEFAULT` from its ALTER DDL: `user_id TEXT NOT NULL DEFAULT
'legacy-user'`, `_ps_version INTEGER NOT NULL DEFAULT 0`, `updated_at
INTEGER NOT NULL DEFAULT 0`, `deleted INTEGER NOT NULL DEFAULT 0`. -/
def requiredColumnDefaults : List (String × SqlValue) :=
  [("user_id", SqlValue.text "legacy-user"),
   ("_ps_version", SqlValue.int 0),
   ("updated_at", SqlValue.int 0),
   ("deleted", SqlValue.int 0)]

/-- Phase 2 of the migration: rebuild `echo_log` without the legacy `ts`
column — create `echo_log_new` with the canonical shape, copy every row
across with the `COALESCE`/`CASE` transforms of the `INSERT ... SELECT`,
drop the old table and rename. `now` stands for `strftime('%s','now')`. -/
def rebuildEchoLog (now : Int) (t : EchoTable) : EchoTable :=
  { cols := ["id", "user_id", "text", "_ps_version", "updated_at", "deleted"],
    rows := t.rows.map (fun r =>
      let upd := rowGet r "updated_at"
      [("id", rowGet r "id"),
       ("user_id", coalesce (rowGet r "user_id") (SqlValue.text "legacy-user")),
       ("text", rowGet r "text"),
       ("_ps_version", coalesce (rowGet r "_ps_version") (SqlValue.int 0)),
       ("updated_at",
         if isNullOrZero upd then coalesce (rowGet r "ts") (SqlValue.int now) else upd),
       ("deleted", coalesce (rowGet r "deleted") (SqlValue.int 0))]) }

/-- The body of the migration transaction (`db.transaction(() => {...})`):
the ALTER loop over `requiredColumns` with its snapshot `existingColumns`,
the four conditional back-fill UPDATEs, and the conditional rebuild, plus
the `MigrationResult` assembled from `added` and `hasLegacyTs`. -/
def migrateEchoLog (now : Int) (t : EchoTable) : EchoTable × MigrationResult :=
  let existingColumns := t.cols
  let hasLegacyTs := hasCol existingColumns "ts"
  let altered := requiredColumnDefaults.foldl
    (fun acc cd =>
      if hasCol existingColumns cd.1 then acc
      else (alterAdd acc.1 cd.1 cd.2, acc.2 ++ [cd.1]))
    (t, [])
  let t1 := altered.1
  let added := altered.2
  let t2 := if hasCol added "user_id" then
      updateWhere t1 "user_id" isNullOrEmptyText (SqlValue.text "legacy-user") else t1
  let t3 := if hasCol added "_ps_version" then
      updateWhere t2 "_ps_version" isNullValue (SqlValue.int 0) else t2
  let t4 := if hasCol added "updated_at" then
      updateWhere t3 "updated_at" isNullOrZero (SqlValue.int now) else t3
  let t5 := if hasCol added "deleted" then
      updateWhere t4 "deleted" isNullValue (SqlValue.int 0) else t4
  let t6 := if hasLegacyTs then rebuildEchoLog now t5 else t5
  (t6, { migrated := !added.isEmpty || hasLegacyTs, details := added })

/-- Embeds `ensureEchoLogSchema(db)`: no-op when `echo_log` does not exist, else the
single-transaction migration of the existing table. `now` stands for the
wall-clock `strftime('%s','now')` used by the back-fill UPDATE and the
rebuild. -/
def ensureEchoLogSchema (now : Int) (db : Option EchoTable) :
    Option EchoTable × MigrationResult :=
  match db with
  | none => (none, { migrated := false, details := [] })
  | some t =>
    let r := migrateEchoLog now t
    (some r.1, r.2)

/-- A table having every canonical column the migration requires and no
legacy `ts` column — the shape on which the migration is a no-op. -/
def canonicalShape (t : EchoTable) : Bool :=
  hasCol t.cols "user_id" && hasCol t.cols "_ps_version"
    && hasCol t.cols "updated_at" && hasCol t.cols "deleted"
    && !(hasCol t.cols "ts")

-- ---------------------------------------------------------------------------
-- Manifest shape and structural validation — src/modules/_schema.ts
-- ---------------------------------------------------------------------------

/-- The `capabilities` of a module manifest; every grant is optional. -/
structure ManifestCapabilities where
  db : Option Bool
  net : Option (List String)
  fs : Option Bool

/-- The `entry` of a module manifest; only `main` is required. -/
structure ManifestEntry where
  main : String
  ui : Option String
  settings : Option String
  agent : Option String

/-- Embeds `ModuleManifest` from `src/modules/_schema.ts`. `settingsSchema` is an
Ajv-compatible JSON-schema object. -/
structure ModuleManifest where
  id : String
  version : Int
  title : String
  icon : Option String
  capabilities : Option ManifestCapabilities
  entry : ManifestEntry
  settingsSchema : Option Json

/-- The `id` pattern of `moduleManifestSchema`: `^[a-z][a-z0-9-]*$`. -/
def idPatternOk (s : String) : Bool :=
  match s.data with
  | [] => false
  | c :: rest =>
    ('a' ≤ c && c ≤ 'z')
      && rest.all (fun d => ('a' ≤ d && d ≤ 'z') || ('0' ≤ d && d ≤ '9') || d == '-')

/-- Structural manifest validation (`ajv.compile(moduleManifestSchema)`).
The type-level constraints of the schema are enforced by the
`ModuleManifest` structure itself; the value-level constraints are the `id`
pattern, `version >= 1` (`minimum: 1`) and `title` of `minLength: 1`. -/
def validateManifest (m : ModuleManifest) : Bool :=
  idPatternOk m.id && decide (1 ≤ m.version) && decide (1 ≤ m.title.length)

-- ---------------------------------------------------------------------------
-- ModuleLoader — src/main/loader.ts
-- ---------------------------------------------------------------------------

/-- The object obtained by importing a manifest's `entry.main`.
`initOutcome` describes what `moduleInstance.init` does when the loader
runs it: `none` when there is no `init` hook or the hook resolves, and
`some e` when the hook rejects with error `e`. `exports` lists the names of
the exported functions. -/
structure ModuleInstance where
  initOutcome : Option String
  exports : List String

/-- A `LoadedModule` of the loader registry: the manifest plus the function
index built from the instance's exports (the bound callables are identified
by their export names). -/
structure LoadedModule where
  manifest : ModuleManifest
  functions : List String

/-- The loader's `registry` map, keyed by manifest id. -/
abbrev LRegistry : Type := List (String × LoadedModule)

/-- A discovery source: a locator plus the parsed manifest, together with the
module instance the locator's `entry.main` resolves to. -/
structure LSource where
  locator : String
  manifest : ModuleManifest
  moduleInstance : ModuleInstance

/-- The function index built by `initialiseModule`: every exported function
except `init`, bound to the module's context. -/
def mkLoaded (s : LSource) : LoadedModule :=
  { manifest := s.manifest,
    functions := s.moduleInstance.exports.filter (fun n => n != "init") }

/-- Embeds `registerManifest` from `src/main/loader.ts`: validate the manifest
(throw `INVALID_MANIFEST` on failure), silently skip when the id is already
registered (first registration wins), then initialise — a rejecting `init`
hook bubbles as an error, otherwise the module is stored in the registry. -/
def registerManifest (reg : LRegistry) (s : LSource) : Except String LRegistry :=
  if validateManifest s.manifest then
    if (lookupAssoc reg s.manifest.id).isSome then Except.ok reg
    else
      match s.moduleInstance.initOutcome with
      | some e => Except.error e
      | none => Except.ok (setAssoc reg s.manifest.id (mkLoaded s))
  else Except.error "INVALID_MANIFEST"

/-- One iteration of the `loadBuiltin` loop: `registerManifest` wrapped in
the per-module `try/catch` that logs and continues. -/
def stepRegister (reg : LRegistry) (s : LSource) : LRegistry :=
  match registerManifest reg s with
  | Except.ok r => r
  | Except.error _ => reg

/-- Embeds `loadBuiltin`: register every discovered source in order, isolating each
failure to its own module. -/
def loadBuiltin (reg : LRegistry) (sources : List LSource) : LRegistry :=
  sources.foldl stepRegister reg

/-- Embeds `ModuleMeta` as produced by `ModuleLoader.list()`. -/
structure ModuleMeta where
  id : String
  title : String
  version : Int
  icon : Option String
  hasSettings : Bool
  settingsSchema : Option Json

/-- Embeds `list()`: metadata of every registered module, in registry order. -/
def list (reg : LRegistry) : List ModuleMeta :=
  reg.map (fun p =>
    { id := p.2.manifest.id,
      title := p.2.manifest.title,
      version := p.2.manifest.version,
      icon := p.2.manifest.icon,
      hasSettings := p.2.manifest.settingsSchema.isSome,
      settingsSchema := p.2.manifest.settingsSchema })

/-- Occurrences of `id` among the listed metadata entries. -/
def countMeta (metas : List ModuleMeta) (id : String) : Nat :=
  (metas.filter (fun mm => mm.id == id)).length

/-- The `ModuleContext` object literal built by `initialiseModule`. A
JavaScript object literal puts every written key on the object, so the
context records its key set explicitly; `db` holds the unlocked database
handle or `undefined`/`null` (both modelled as `none`). -/
structure LContext where
  moduleId : String
  keys : List String
  db : Option Unit

/-- Truthiness of `manifest.capabilities?.db`. -/
def capDbTruthy (m : ModuleManifest) : Bool :=
  match m.capabilities with
  | some c => c.db.getD false
  | none => false

/-- The context construction of `initialiseModule`:
`{ moduleId, logger, db: manifest.capabilities?.db ? getDb() : undefined,
getSettings, patchSettings }`. `dbHandle` is what `getDb()` returns — the
unlocked handle or `null`. -/
def buildModuleContext (m : ModuleManifest) (dbHandle : Option Unit) : LContext :=
  { moduleId := m.id,
    keys := ["moduleId", "logger", "db", "getSettings", "patchSettings"],
    db := if capDbTruthy m then dbHandle else none }

-- ---------------------------------------------------------------------------
-- Module settings — loader getModuleSettings/patchModuleSettings and the
-- ghost:patch-module-settings IPC handler
-- ---------------------------------------------------------------------------

/-- A settings document: the parsed JSON object stored for one module. -/
abbrev SettingsObj : Type := List (String × Json)

/-- The `module_settings` table: `module_id` to its JSON document. -/
abbrev SettingsStore : Type := List (String × SettingsObj)

/-- Embeds `getModuleSettings`: the stored document, or `{}` when none exists. -/
def getModuleSettings (store : SettingsStore) (moduleId : String) : SettingsObj :=
  (lookupAssoc store moduleId).getD []

/-- JavaScript object spread `{...current, ...diff}`: the keys of `current`
in order with values overridden by `diff`, then the new keys of `diff`. -/
def jsSpreadMerge (current diff : SettingsObj) : SettingsObj :=
  current.map (fun p =>
      match diff.find? (fun q => q.1 == p.1) with
      | some q => (p.1, q.2)
      | none => p)
    ++ diff.filter (fun q => !(current.any (fun p => p.1 == q.1)))

/-- Embeds `ModuleLoader.patchModuleSettings`: requires the module to be registered
with a `settingsSchema`; shallow-merges the diff over the stored settings,
runs the compiled schema validator over the merged object, and only then
persists with `INSERT OR REPLACE`. `validate` stands for
`ajv.compile(schema)`. -/
def patchModuleSettings (validate : Json → SettingsObj → Bool) (reg : LRegistry)
    (store : SettingsStore) (moduleId : String) (diff : SettingsObj) :
    Except String SettingsStore :=
  match lookupAssoc reg moduleId with
  | none => Except.error ("Module " ++ moduleId ++ " does not have settings schema")
  | some m =>
    match m.manifest.settingsSchema with
    | none => Except.error ("Module " ++ moduleId ++ " does not have settings schema")
    | some schema =>
      let current := getModuleSettings store moduleId
      let updated := jsSpreadMerge current diff
      if validate schema updated then
        Except.ok (setAssoc store moduleId updated)
      else Except.error "Invalid settings"

/-- The `{success} | {success:false, error}` object the IPC settings handler
returns. -/
structure IpcPatchResult where
  success : Bool
  error : Option String
deriving DecidableEq

/-- The `ghost:patch-module-settings` IPC handler from `src/main/ipc.ts`:
reads the current document, shallow-merges the diff, and persists the merged
object with no schema validation (its `TODO: Validate against module schema
here` is unimplemented), reporting success. -/
def ipcPatchModuleSettings (store : SettingsStore) (moduleId : String)
    (diff : SettingsObj) : SettingsStore × IpcPatchResult :=
  let current := getModuleSettings store moduleId
  let updated := jsSpreadMerge current diff
  (setAssoc store moduleId updated, { success := true, error := none })

-- ---------------------------------------------------------------------------
-- ModuleRegistry — src/main/modules.ts (record-of-functions variant)
-- ---------------------------------------------------------------------------

/-- Embeds `ToolDef` from `src/main/modules.ts`: a public function exposed by a
module. The handler is the function value itself. -/
structure ToolDef where
  name : String
  description : String
  handler : Json → Except String Json

/-- Metadata the renderer dashboard receives from `listModules()`. -/
structure MMetaEntry where
  id : String
  title : String
  icon : Option String
deriving DecidableEq

/-- The `meta` record of an `AssistantModule`. -/
structure MMeta where
  title : String
  icon : Option String

/-- Embeds `AssistantModule` from `src/main/modules.ts`. `id` is `none` when the
module object carries no id (the TypeScript type requires one, the runtime
does not). `initOutcome` describes the optional `init` hook's behaviour:
`none` when absent or resolving, `some e` when it rejects with `e`. -/
structure MModule where
  id : Option String
  schema : String
  meta : MMeta
  functions : List ToolDef
  initOutcome : Option String

/-- The `ModuleRegistry` state: the `modules` map and the `tools` index. -/
structure MRegistry where
  modules : List (String × MModule)
  tools : List (String × ToolDef)

/-- The registry before any registration. -/
def emptyMRegistry : MRegistry := { modules := [], tools := [] }

/-- Truthiness of `module.id` in the `if (!module.id)` guard: `false` for a
missing id and for the empty string. -/
def jsTruthyId (id : Option String) : Bool :=
  match id with
  | none => false
  | some s => !(s == "")

/-- Embeds `registerTool`: index the tool under `` `${moduleId}.${tool.name}` ``. -/
def registerTool (reg : MRegistry) (moduleId : String) (tool : ToolDef) : MRegistry :=
  { reg with tools := setAssoc reg.tools (moduleId ++ "." ++ tool.name) tool }

/-- Embeds `registerModule` from `src/main/modules.ts`: generate a fresh UUID when
the module has no (truthy) id, apply the module's SQL schema (a database
side effect outside this state), run the optional `init` hook — whose
rejection aborts this registration — then index every public function and
store the module under its id. `uuid` is the value `uuidv4()` returns. -/
def registerModule (uuid : String) (reg : MRegistry) (m : MModule) :
    Except String MRegistry :=
  let mid := if jsTruthyId m.id then m.id.getD uuid else uuid
  match m.initOutcome with
  | some e => Except.error e
  | none =>
    let reg1 := m.functions.foldl (fun r t => registerTool r mid t) reg
    Except.ok { reg1 with modules := setAssoc reg1.modules mid { m with id := some mid } }

/-- The `loadModules` loop body: register each discovered module in order.
There is no per-module `try/catch`, so the first rejection stops the loop;
modules registered before it stay in the (mutated) registry. `uuidOf i` is
the UUID `registerModule` would generate for the i-th module. -/
def loadModulesGo (uuidOf : Nat → String) : Nat → List MModule → MRegistry →
    MRegistry × Option String
  | _, [], reg => (reg, none)
  | i, m :: rest, reg =>
    match registerModule (uuidOf i) reg m with
    | Except.ok r => loadModulesGo uuidOf (i + 1) rest r
    | Except.error e => (reg, some e)

/-- Embeds `loadModules`: register every compile-time discovered module. Returns the
registry state after the loop together with the error that escaped it, if
any. -/
def loadModules (uuidOf : Nat → String) (mods : List MModule) (reg : MRegistry) :
    MRegistry × Option String :=
  loadModulesGo uuidOf 0 mods reg

/-- Embeds `listModules()`: lightweight metadata for the renderer dashboard. -/
def listModules (reg : MRegistry) : List MMetaEntry :=
  reg.modules.map (fun p =>
    { id := (p.2.id).getD "", title := p.2.meta.title, icon := p.2.meta.icon })

/-- Embeds `ModuleRegistry.invoke`: resolve `` `${moduleId}.${fn}` `` in the tools
index; throw `FUNCTION_NOT_FOUND` when absent, otherwise run the handler
(whose own errors bubble unmodified). -/
def registryInvoke (reg : MRegistry) (moduleId fn : String) (args : Json) :
    Except String Json :=
  match lookupAssoc reg.tools (moduleId ++ "." ++ fn) with
  | none => Except.error "FUNCTION_NOT_FOUND"
  | some tool => tool.handler args

/-- What the `ghost:invoke-module` IPC handler hands back to the renderer:
either the raw result or the `{ error: message }` object built in its
`catch` block. -/
inductive IpcInvokeResult where
  | raw (value : Json)
  | errObj (message : String)

/-- The `ghost:invoke-module` handler from `src/main/ipc.ts`: await the
registry invocation inside `try/catch` and turn any thrown error into a
`{ error }` result object — nothing is rethrown across the IPC boundary. -/
def ipcInvokeModule (reg : MRegistry) (moduleId fn : String) (args : Json) :
    IpcInvokeResult :=
  match registryInvoke reg moduleId fn args with
  | Except.ok v => IpcInvokeResult.raw v
  | Except.error e => IpcInvokeResult.errObj e

-- ---------------------------------------------------------------------------
-- Registry well-formedness and concrete fixtures used by the theorems
-- ---------------------------------------------------------------------------

/-- Well-formedness of the loader registry: every stored module sits under
its own manifest id and the keys are pairwise distinct. The empty registry
has it, and `registerManifest` preserves it. -/
def RegWF (reg : LRegistry) : Prop :=
  (∀ p ∈ reg, p.2.manifest.id = p.1) ∧ (reg.map Prod.fst).Nodup

/-- A minimal valid manifest with the given id and title. -/
def simpleManifest (id title : String) : ModuleManifest :=
  { id := id, version := 1, title := title, icon := none, capabilities := none,
    entry := { main := "index.ts", ui := none, settings := none, agent := none },
    settingsSchema := none }

/-- First discovery source claiming the id `dup`. -/
def dupSource1 : LSource :=
  { locator := "a/manifest.ts", manifest := simpleManifest "dup" "First",
    moduleInstance := { initOutcome := none, exports := ["reply"] } }

/-- Second discovery source claiming the id `dup`. -/
def dupSource2 : LSource :=
  { locator := "b/manifest.ts", manifest := simpleManifest "dup" "Second",
    moduleInstance := { initOutcome := none, exports := ["other"] } }

/-- A healthy first module for the init-failure scenario. -/
def alphaSource : LSource :=
  { locator := "alpha/manifest.ts", manifest := simpleManifest "alpha" "Alpha",
    moduleInstance := { initOutcome := none, exports := ["run"] } }

/-- The middle module whose `init` hook always rejects. -/
def betaSource : LSource :=
  { locator := "beta/manifest.ts", manifest := simpleManifest "beta" "Beta",
    moduleInstance := { initOutcome := some "INIT_FAIL", exports := ["run"] } }

/-- A healthy third module for the init-failure scenario. -/
def gammaSource : LSource :=
  { locator := "gamma/manifest.ts", manifest := simpleManifest "gamma" "Gamma",
    moduleInstance := { initOutcome := none, exports := ["run"] } }

/-- A manifest that declares no capabilities at all. -/
def noCapManifest : ModuleManifest := simpleManifest "plain" "Plain"

/-- A manifest that declares the storage (`db`) capability. -/
def storageManifest : ModuleManifest :=
  { simpleManifest "vault" "Vault" with
    capabilities := some { db := some true, net := none, fs := none } }

/-- The `settingsSchema` of the demo module: an object whose `volume`
property must be a number. -/
def demoSettingsSchema : Json :=
  Json.obj [("type", Json.str "object"),
            ("properties", Json.obj [("volume", Json.obj [("type", Json.str "number")])])]

/-- The compiled Ajv validator of `demoSettingsSchema`: a `volume` field, if
present, must hold a number. -/
def volumeIsNumber (_schema : Json) (s : SettingsObj) : Bool :=
  s.all (fun p =>
    if p.1 == "volume" then
      match p.2 with
      | Json.num _ => true
      | _ => false
    else true)

/-- A module with the demo settings schema. -/
def demoManifest : ModuleManifest :=
  { simpleManifest "demo" "Demo" with settingsSchema := some demoSettingsSchema }

/-- Loader registry holding only the demo module. -/
def demoRegistry : LRegistry :=
  [("demo", { manifest := demoManifest, functions := [] })]

/-- Loader registry holding only a module without a `settingsSchema`. -/
def plainRegistry : LRegistry :=
  [("plain", { manifest := noCapManifest, functions := [] })]

/-- A record-registry module fixture. -/
def mkMModule (id : Option String) (title : String) (initOutcome : Option String) :
    MModule :=
  { id := id, schema := "", meta := { title := title, icon := none },
    functions := [], initOutcome := initOutcome }

/-- First record-registry module claiming the id `dup`. -/
def dupModA : MModule := mkMModule (some "dup") "First" none

/-- Second record-registry module claiming the id `dup`. -/
def dupModB : MModule := mkMModule (some "dup") "Second" none

/-- A healthy first record-registry module. -/
def regModA : MModule := mkMModule (some "m-a") "Alpha" none

/-- A record-registry module whose `init` hook always rejects. -/
def regModB : MModule := mkMModule (some "m-b") "Beta" (some "INIT_FAIL")

/-- A healthy third record-registry module. -/
def regModC : MModule := mkMModule (some "m-c") "Gamma" none

/-- A record-registry module carrying no id at all. -/
def anonModule : MModule := mkMModule none "Anon" none

-- ---------------------------------------------------------------------------
-- Helper lemmas
-- ---------------------------------------------------------------------------

@[simp] lemma hasCol_nil (c : String) : hasCol [] c = false := rfl

@[simp] lemma hasCol_cons (x : String) (l : List String) (c : String) :
    hasCol (x :: l) c = (x == c || hasCol l c) := by
  simp [hasCol]

@[simp] lemma hasCol_append (l1 l2 : List String) (c : String) :
    hasCol (l1 ++ l2) c = (hasCol l1 c || hasCol l2 c) := by
  simp [hasCol]

@[simp] lemma updateWhere_cols (t : EchoTable) (c : String) (cond : SqlValue → Bool)
    (v : SqlValue) : (updateWhere t c cond v).cols = t.cols := rfl

@[simp] lemma alterAdd_cols (t : EchoTable) (c : String) (d : SqlValue) :
    (alterAdd t c d).cols = t.cols ++ [c] := rfl

@[simp] lemma rebuildEchoLog_cols (n : Int) (t : EchoTable) :
    (rebuildEchoLog n t).cols
      = ["id", "user_id", "text", "_ps_version", "updated_at", "deleted"] := rfl

/-- On a table already in canonical shape the migration transaction adds no
column, performs no back-fill and no rebuild, and reports nothing done. -/
lemma migrate_noop (n : Int) (t : EchoTable) (h : canonicalShape t = true) :
    migrateEchoLog n t = (t, { migrated := false, details := [] }) := by
  simp only [canonicalShape, Bool.and_eq_true, Bool.not_eq_true'] at h
  obtain ⟨⟨⟨⟨h1, h2⟩, h3⟩, h4⟩, h5⟩ := h
  simp [migrateEchoLog, requiredColumnDefaults, h1, h2, h3, h4, h5]

/-- Whatever the starting shape of `echo_log`, one migration run leaves the
table with every required canonical column present and no legacy `ts`
column. -/
lemma migrate_shape (n : Int) (t : EchoTable) :
    canonicalShape (migrateEchoLog n t).1 = true := by
  cases hts : hasCol t.cols "ts" with
  | true =>
    simp [migrateEchoLog, hts, canonicalShape]
  | false =>
    cases h1 : hasCol t.cols "user_id" <;>
      cases h2 : hasCol t.cols "_ps_version" <;>
        cases h3 : hasCol t.cols "updated_at" <;>
          cases h4 : hasCol t.cols "deleted" <;>
            simp [migrateEchoLog, requiredColumnDefaults, canonicalShape,
              hts, h1, h2, h3, h4]

/-- Claim C9: the forward-only migration is idempotent — for every starting
`echo_log` state, running `ensureEchoLogSchema` a second time on the table
produced by the first run executes no DDL (it reports no columns added and
no rebuild, `migrated = false` and empty `details`) and leaves the table,
rows included, exactly as the first run left it. -/
theorem migration_idempotent (now1 now2 : Int) (db : Option EchoTable) :
    ensureEchoLogSchema now2 (ensureEchoLogSchema now1 db).1
      = ((ensureEchoLogSchema now1 db).1, { migrated := false, details := [] }) := by
  cases db with
  | none => rfl
  | some t =>
    have h2 := migrate_noop now2 ((migrateEchoLog now1 t).1) (migrate_shape now1 t)
    simp [ensureEchoLogSchema, h2]

@[simp] lemma lookupAssoc_nil {α : Type} (k : String) :
    lookupAssoc ([] : List (String × α)) k = none := rfl

lemma lookupAssoc_cons {α : Type} (p : String × α) (l : List (String × α)) (k : String) :
    lookupAssoc (p :: l) k = if p.1 == k then some p.2 else lookupAssoc l k := by
  by_cases hp : p.1 == k <;> simp [lookupAssoc, List.find?_cons, hp]

lemma lookupAssoc_append_left {α : Type} (l l' : List (String × α)) (k : String)
    (v : α) (h : lookupAssoc l k = some v) : lookupAssoc (l ++ l') k = some v := by
  induction l with
  | nil => simp at h
  | cons p rest ih =>
    by_cases hp : p.1 == k <;>
      simp_all [lookupAssoc_cons, hp]

lemma lookupAssoc_append_self {α : Type} (l : List (String × α)) (k : String)
    (v : α) (h : lookupAssoc l k = none) : lookupAssoc (l ++ [(k, v)]) k = some v := by
  induction l with
  | nil => simp [lookupAssoc_cons]
  | cons p rest ih =>
    by_cases hp : p.1 == k <;>
      simp_all [lookupAssoc_cons, hp]

lemma setAssoc_eq_append {α : Type} (l : List (String × α)) (k : String) (v : α)
    (h : lookupAssoc l k = none) : setAssoc l k v = l ++ [(k, v)] := by
  induction l with
  | nil => rfl
  | cons p rest ih =>
    by_cases hp : p.1 == k <;>
      simp_all [lookupAssoc_cons, setAssoc, hp]

lemma lookupAssoc_setAssoc_self {α : Type} (l : List (String × α)) (k : String)
    (v : α) : lookupAssoc (setAssoc l k v) k = some v := by
  induction l with
  | nil => simp [setAssoc, lookupAssoc_cons]
  | cons p rest ih =>
    by_cases hp : p.1 == k <;>
      simp_all [setAssoc, lookupAssoc_cons, hp]

lemma not_mem_keys_of_lookupAssoc_none {α : Type} (l : List (String × α))
    (k : String) (h : lookupAssoc l k = none) : k ∉ l.map Prod.fst := by
  induction l with
  | nil => simp
  | cons p rest ih =>
    by_cases hp : p.1 == k <;>
      simp_all [lookupAssoc_cons, hp]
    · exact fun hk => hp (by simp [hk])

lemma mem_setAssoc_self {α : Type} (l : List (String × α)) (k : String) (v : α) :
    (k, v) ∈ setAssoc l k v := by
  induction l with
  | nil => simp [setAssoc]
  | cons p rest ih =>
    by_cases hp : p.1 == k <;> simp_all [setAssoc, hp]

/-- Claim C1: for every module id, table name and module-supplied column
list, the table `defineTable` creates carries the five canonical columns —
`id TEXT PRIMARY KEY`, `user_id TEXT NOT NULL`, `_ps_version INTEGER
DEFAULT 0`, `updated_at INTEGER NOT NULL` (no default), `deleted INTEGER
DEFAULT 0` — prepended before the module-supplied columns, whatever those
are. The hypothesis states that the table does not already exist, i.e. that
the `CREATE TABLE IF NOT EXISTS` statement actually creates it. -/
theorem defineTable_prepends_canonical_columns (moduleId tableName : String)
    (userColumns : List ColumnDef) (db : SchemaDb)
    (hfresh : lookupAssoc db (fullTableName moduleId tableName) = none) :
    lookupAssoc (defineTable moduleId tableName userColumns db).2
        (fullTableName moduleId tableName)
      = some ([⟨"id", "TEXT", true, false, none⟩,
               ⟨"user_id", "TEXT", false, true, none⟩,
               ⟨"_ps_version", "INTEGER", false, false, some 0⟩,
               ⟨"updated_at", "INTEGER", false, true, none⟩,
               ⟨"deleted", "INTEGER", false, false, some 0⟩] ++ userColumns) := by
  simp only [defineTable, execCreateTableIfNotExists, hfresh, Option.isSome_none,
    Bool.false_eq_true, if_false]
  exact lookupAssoc_append_self db _ _ hfresh

/-- Witness for C1: `defineTable('echo', 'log', 'text TEXT NOT NULL')` on a
fresh database stores `echo_log` with the five canonical columns followed by
the echo module's `text` column. -/
theorem defineTable_prepends_canonical_columns_witness :
    lookupAssoc ([] : SchemaDb) (fullTableName "echo" "log") = none
    ∧ lookupAssoc (defineTable "echo" "log" [⟨"text", "TEXT", false, true, none⟩] []).2
          (fullTableName "echo" "log")
        = some ([⟨"id", "TEXT", true, false, none⟩,
                 ⟨"user_id", "TEXT", false, true, none⟩,
                 ⟨"_ps_version", "INTEGER", false, false, some 0⟩,
                 ⟨"updated_at", "INTEGER", false, true, none⟩,
                 ⟨"deleted", "INTEGER", false, false, some 0⟩]
                ++ [⟨"text", "TEXT", false, true, none⟩]) :=
  ⟨rfl, defineTable_prepends_canonical_columns "echo" "log"
    [⟨"text", "TEXT", false, true, none⟩] [] rfl⟩

/-- Claim C7 (amended): `defineTable(moduleId, tableName, moduleColumnsDDL)`
computes the physical table name as `` `${moduleId}_${tableName}` `` and
creates the table (and its indexes) under that name, but the value it
returns is the `fullSchema` DDL string — not the fully-qualified table name,
which the returned string strictly contains. -/
theorem defineTable_returns_ddl_not_table_name (moduleId tableName : String)
    (userColumns : List ColumnDef) (db : SchemaDb) :
    (defineTable moduleId tableName userColumns db).2
        = execCreateTableIfNotExists db (fullTableName moduleId tableName)
            (canonicalColumns ++ userColumns)
    ∧ (defineTable moduleId tableName userColumns db).1
        ≠ fullTableName moduleId tableName := by
  refine ⟨rfl, fun hEq => ?_⟩
  have hlen := congrArg String.length hEq
  simp only [defineTable, fullSchemaText, fullTableName, String.length_append] at hlen
  have hpos : 0 < ("\n    CREATE TABLE IF NOT EXISTS ").length := by decide
  omega

/-- Counterexample for C7 as stated: for the echo module's own call the
returned value differs from the fully-qualified table name `echo_log`. -/
theorem defineTable_return_is_not_table_name_cx :
    (defineTable "echo" "log" [⟨"text", "TEXT", false, true, none⟩] []).1
      ≠ "echo_log" := by
  decide

/-- Claim C6: whenever the resolution key `` `${moduleId}.${functionName}` ``
is absent from the invocation index, the registry invocation resolves to the
`FUNCTION_NOT_FOUND` error and the `ghost:invoke-module` IPC handler hands
the UI-boundary caller the tagged `{ error: 'FUNCTION_NOT_FOUND' }` result
object — the handler is total, so nothing is thrown across the boundary. -/
theorem invoke_unknown_function_returns_tagged_error (reg : MRegistry)
    (moduleId fn : String) (args : Json)
    (habsent : lookupAssoc reg.tools (moduleId ++ "." ++ fn) = none) :
    registryInvoke reg moduleId fn args = Except.error "FUNCTION_NOT_FOUND"
    ∧ ipcInvokeModule reg moduleId fn args
        = IpcInvokeResult.errObj "FUNCTION_NOT_FOUND" := by
  constructor <;> simp [ipcInvokeModule, registryInvoke, habsent]

/-- Witness for C6: `invoke('nope', 'x', {})` against the empty registry
yields the FunctionNotFound outcome as a tagged result. -/
theorem invoke_unknown_function_returns_tagged_error_witness :
    lookupAssoc emptyMRegistry.tools ("nope" ++ "." ++ "x") = none
    ∧ ipcInvokeModule emptyMRegistry "nope" "x" (Json.obj [])
        = IpcInvokeResult.errObj "FUNCTION_NOT_FOUND" :=
  ⟨rfl, (invoke_unknown_function_returns_tagged_error emptyMRegistry "nope" "x"
    (Json.obj []) rfl).2⟩

lemma registerTool_modules (reg : MRegistry) (mid : String) (t : ToolDef) :
    (registerTool reg mid t).modules = reg.modules := rfl

lemma foldl_registerTool_modules (fs : List ToolDef) (mid : String) :
    ∀ reg : MRegistry, (fs.foldl (fun r t => registerTool r mid t) reg).modules
      = reg.modules := by
  induction fs with
  | nil => intro reg; rfl
  | cons f rest ih => intro reg; simpa [registerTool_modules] using ih (registerTool reg mid f)

/-- Claim C10: in the record-registry variant, a module whose `id` is
missing or empty is registered anyway — `registerModule` adopts the freshly
generated UUID as the module's id and registry key, registration completes,
and `listModules()` reports the module under that UUID. The hypotheses
state the falsy id and that the module's optional `init` hook does not
reject (the id handling never rejects). -/
theorem register_module_generates_uuid_for_missing_id (uuid : String)
    (reg : MRegistry) (m : MModule) (hid : jsTruthyId m.id = false)
    (hinit : m.initOutcome = none) :
    ∃ reg', registerModule uuid reg m = Except.ok reg'
      ∧ lookupAssoc reg'.modules uuid = some { m with id := some uuid }
      ∧ ({ id := uuid, title := m.meta.title, icon := m.meta.icon } : MMetaEntry)
          ∈ listModules reg' := by
  refine ⟨{ m.functions.foldl (fun r t => registerTool r uuid t) reg with
    modules := setAssoc (m.functions.foldl (fun r t => registerTool r uuid t) reg).modules
      uuid { m with id := some uuid } }, ?_, ?_, ?_⟩
  · simp [registerModule, hid, hinit]
  · simp only [registerModule, hid, hinit, Bool.false_eq_true, if_false]
    exact lookupAssoc_setAssoc_self _ _ _
  · simp only [registerModule, hid, hinit, Bool.false_eq_true, if_false, listModules,
      foldl_registerTool_modules]
    have hmem := List.mem_map_of_mem
      (fun p : String × MModule =>
        ({ id := p.2.id.getD "", title := p.2.meta.title, icon := p.2.meta.icon } : MMetaEntry))
      (mem_setAssoc_self reg.modules uuid { m with id := some uuid })
    simpa [hinit] using hmem

lemma loadBuiltin_append (reg : LRegistry) (l1 l2 : List LSource) :
    loadBuiltin reg (l1 ++ l2) = loadBuiltin (loadBuiltin reg l1) l2 := by
  simp [loadBuiltin, List.foldl_append]

lemma stepRegister_preserves (reg : LRegistry) (s : LSource) (id : String)
    (v : LoadedModule) (h : lookupAssoc reg id = some v) :
    lookupAssoc (stepRegister reg s) id = some v := by
  unfold stepRegister registerManifest
  by_cases hv : validateManifest s.manifest = true
  · by_cases hd : (lookupAssoc reg s.manifest.id).isSome = true
    · simp [hv, hd, h]
    · have hnone : lookupAssoc reg s.manifest.id = none := by
        cases hq : lookupAssoc reg s.manifest.id <;> simp_all
      cases hi : s.moduleInstance.initOutcome with
      | some e => simp [hv, hd, hi, h]
      | none =>
        simp only [hv, if_true, hd, Bool.false_eq_true, if_false, hi]
        rw [setAssoc_eq_append _ _ _ hnone]
        exact lookupAssoc_append_left _ _ _ _ h
  · simp [hv, h]

lemma loadBuiltin_preserves (sources : List LSource) :
    ∀ (reg : LRegistry) (id : String) (v : LoadedModule),
      lookupAssoc reg id = some v →
      lookupAssoc (loadBuiltin reg sources) id = some v := by
  induction sources with
  | nil => intro reg id v h; exact h
  | cons s rest ih =>
    intro reg id v h
    exact ih (stepRegister reg s) id v (stepRegister_preserves reg s id v h)

lemma nodup_snoc (l : List String) (k : String) (h : l.Nodup) (hk : k ∉ l) :
    (l ++ [k]).Nodup := by
  simp [List.nodup_append, h, hk]

lemma regWF_empty : RegWF [] := by
  constructor
  · intro p hp; simp at hp
  · simp

lemma regWF_step (reg : LRegistry) (s : LSource) (h : RegWF reg) :
    RegWF (stepRegister reg s) := by
  obtain ⟨hids, hnd⟩ := h
  unfold stepRegister registerManifest
  by_cases hv : validateManifest s.manifest = true
  · by_cases hd : (lookupAssoc reg s.manifest.id).isSome = true
    · simpa [hv, hd] using ⟨hids, hnd⟩
    · have hnone : lookupAssoc reg s.manifest.id = none := by
        cases hq : lookupAssoc reg s.manifest.id <;> simp_all
      cases hi : s.moduleInstance.initOutcome with
      | some e => simpa [hv, hd, hi] using ⟨hids, hnd⟩
      | none =>
        simp only [hv, if_true, hd, Bool.false_eq_true, if_false, hi]
        rw [setAssoc_eq_append _ _ _ hnone]
        constructor
        · intro p hp
          rcases List.mem_append.mp hp with hold | hnew
          · exact hids p hold
          · simp at hnew; subst hnew; rfl
        · rw [List.map_append]
          exact nodup_snoc _ _ hnd (not_mem_keys_of_lookupAssoc_none _ _ hnone)
  · simpa [hv] using ⟨hids, hnd⟩

lemma regWF_loadBuiltin (sources : List LSource) :
    ∀ reg : LRegistry, RegWF reg → RegWF (loadBuiltin reg sources) := by
  induction sources with
  | nil => intro reg h; exact h
  | cons s rest ih => intro reg h; exact ih (stepRegister reg s) (regWF_step reg s h)

lemma countMeta_zero (reg : LRegistry) (id : String)
    (hids : ∀ p ∈ reg, p.2.manifest.id = p.1) (habs : id ∉ reg.map Prod.fst) :
    countMeta (list reg) id = 0 := by
  induction reg with
  | nil => rfl
  | cons p rest ih =>
    simp only [List.map_cons, List.mem_cons, not_or] at habs
    obtain ⟨hne, habs'⟩ := habs
    have hid : p.2.manifest.id = p.1 := hids p (List.mem_cons_self p rest)
    have hcond : (p.2.manifest.id == id) = false := by
      exact beq_eq_false_iff_ne.mpr (fun hc => hne (by rw [← hid, hc]))
    simp only [countMeta, list, List.map_cons, List.filter_cons] at *
    simp only [hcond, Bool.false_eq_true, if_false]
    exact ih (fun q hq => hids q (List.mem_cons_of_mem p hq)) habs'

lemma countMeta_one (reg : LRegistry) (id : String) (v : LoadedModule)
    (hwf : RegWF reg) (h : lookupAssoc reg id = some v) :
    countMeta (list reg) id = 1 := by
  induction reg with
  | nil => simp at h
  | cons p rest ih =>
    obtain ⟨hids, hnd⟩ := hwf
    have hid : p.2.manifest.id = p.1 := hids p (List.mem_cons_self p rest)
    simp only [List.map_cons, List.nodup_cons] at hnd
    obtain ⟨hnotmem, hndrest⟩ := hnd
    rw [lookupAssoc_cons] at h
    by_cases hp : (p.1 == id) = true
    · have hkeq : p.1 = id := by simpa using hp
      have hcond : (p.2.manifest.id == id) = true := by
        rw [hid, hkeq]; exact beq_self_eq_true id
      simp only [countMeta, list, List.map_cons, List.filter_cons, hcond, if_true]
      have hz : countMeta (list rest) id = 0 :=
        countMeta_zero rest id (fun q hq => hids q (List.mem_cons_of_mem p hq))
          (by rw [← hkeq]; exact hnotmem)
      simp only [countMeta, list] at hz
      simp [List.length_cons, hz]
    · have hcond : (p.2.manifest.id == id) = false := by
        rw [hid]; simpa using hp
      simp only [hp, Bool.false_eq_true, if_false] at h
      have hrest := ih ⟨fun q hq => hids q (List.mem_cons_of_mem p hq), hndrest⟩ h
      simp only [countMeta, list, List.map_cons, List.filter_cons, hcond,
        Bool.false_eq_true, if_false]
      simpa [countMeta, list] using hrest

/-- Claim C3 (amended): in the `ModuleLoader` registry the first successful
registration of an id wins — once a source `s` registers (its manifest is
valid, its id is not yet taken, its `init` hook does not reject), every
later source is powerless against it: after processing any remaining
sources, `list()` still contains `s.manifest.id` exactly once, backed by the
module built from `s`. In the `ModuleRegistry` variant a duplicate id is
instead overwritten by the second registration (see the counterexample). -/
theorem loader_first_registration_wins (pre post : List LSource) (s : LSource)
    (hfresh : lookupAssoc (loadBuiltin [] pre) s.manifest.id = none)
    (hval : validateManifest s.manifest = true)
    (hinit : s.moduleInstance.initOutcome = none) :
    lookupAssoc (loadBuiltin [] (pre ++ s :: post)) s.manifest.id = some (mkLoaded s)
    ∧ countMeta (list (loadBuiltin [] (pre ++ s :: post))) s.manifest.id = 1 := by
  have hsplit : loadBuiltin [] (pre ++ s :: post)
      = loadBuiltin (stepRegister (loadBuiltin [] pre) s) post := by
    rw [show pre ++ s :: post = (pre ++ [s]) ++ post from by simp,
      loadBuiltin_append, loadBuiltin_append]
    rfl
  have hstep : stepRegister (loadBuiltin [] pre) s
      = loadBuiltin [] pre ++ [(s.manifest.id, mkLoaded s)] := by
    unfold stepRegister registerManifest
    simp only [hval, if_true, hfresh, Option.isSome_none, Bool.false_eq_true,
      if_false, hinit]
    exact setAssoc_eq_append _ _ _ hfresh
  have hlk : lookupAssoc (stepRegister (loadBuiltin [] pre) s) s.manifest.id
      = some (mkLoaded s) := by
    rw [hstep]; exact lookupAssoc_append_self _ _ _ hfresh
  have hfinal : lookupAssoc (loadBuiltin [] (pre ++ s :: post)) s.manifest.id
      = some (mkLoaded s) := by
    rw [hsplit]; exact loadBuiltin_preserves post _ _ _ hlk
  refine ⟨hfinal, ?_⟩
  have hwf : RegWF (loadBuiltin [] (pre ++ s :: post)) :=
    regWF_loadBuiltin _ _ regWF_empty
  exact countMeta_one _ _ _ hwf hfinal

/-- Witness for C3: registering two sources that both claim the id `dup`
leaves the first one's module in the registry and lists `dup` exactly
once. -/
theorem loader_first_registration_wins_witness :
    validateManifest dupSource1.manifest = true
    ∧ lookupAssoc (loadBuiltin [] [dupSource1, dupSource2]) "dup"
        = some (mkLoaded dupSource1)
    ∧ countMeta (list (loadBuiltin [] [dupSource1, dupSource2])) "dup" = 1 :=
  ⟨by decide,
   (loader_first_registration_wins [] [dupSource2] dupSource1 rfl (by decide) rfl).1,
   (loader_first_registration_wins [] [dupSource2] dupSource1 rfl (by decide) rfl).2⟩

/-- Counterexample for C3 as stated: in the `ModuleRegistry` variant
(`src/main/modules.ts`) there is no duplicate guard — registering a second
module under the id `dup` overwrites the first, so `listModules()` reports
the metadata of the second-registered module, not the first's. -/
theorem registry_duplicate_overwrites_first :
    registerModule "u1" emptyMRegistry dupModA
      = Except.ok { modules := [("dup", dupModA)], tools := [] }
    ∧ registerModule "u2" { modules := [("dup", dupModA)], tools := [] } dupModB
      = Except.ok { modules := [("dup", dupModB)], tools := [] }
    ∧ listModules { modules := [("dup", dupModB)], tools := [] }
      = [{ id := "dup", title := "Second", icon := none }]
    ∧ ({ id := "dup", title := "Second", icon := none } : MMetaEntry)
      ≠ { id := "dup", title := "First", icon := none } :=
  ⟨rfl, rfl, rfl, by decide⟩

/-- Claim C5 (amended): in the `ModuleLoader`, a module whose `init` hook
rejects is excluded alone — given three valid manifests with distinct ids
where the second's init always rejects, `loadBuiltin` still registers the
first and third, and `list()` contains exactly their ids, in order. In the
`ModuleRegistry` variant the rejection instead aborts the remainder of the
batch (see the counterexample). -/
theorem loader_isolates_init_failure (s1 s2 s3 : LSource) (e2 : String)
    (hv1 : validateManifest s1.manifest = true)
    (hv2 : validateManifest s2.manifest = true)
    (hv3 : validateManifest s3.manifest = true)
    (hi1 : s1.moduleInstance.initOutcome = none)
    (hi2 : s2.moduleInstance.initOutcome = some e2)
    (hi3 : s3.moduleInstance.initOutcome = none)
    (h21 : s2.manifest.id ≠ s1.manifest.id)
    (h31 : s3.manifest.id ≠ s1.manifest.id) :
    (list (loadBuiltin [] [s1, s2, s3])).map (fun mm => mm.id)
      = [s1.manifest.id, s3.manifest.id] := by
  have hb21 : (s1.manifest.id == s2.manifest.id) = false :=
    beq_eq_false_iff_ne.mpr (Ne.symm h21)
  have hb31 : (s1.manifest.id == s3.manifest.id) = false :=
    beq_eq_false_iff_ne.mpr (Ne.symm h31)
  have r1 : stepRegister [] s1 = [(s1.manifest.id, mkLoaded s1)] := by
    unfold stepRegister registerManifest
    simp [hv1, hi1, setAssoc]
  have r2 : stepRegister [(s1.manifest.id, mkLoaded s1)] s2
      = [(s1.manifest.id, mkLoaded s1)] := by
    unfold stepRegister registerManifest
    simp [hv2, hi2, lookupAssoc_cons, hb21]
  have r3 : stepRegister [(s1.manifest.id, mkLoaded s1)] s3
      = [(s1.manifest.id, mkLoaded s1), (s3.manifest.id, mkLoaded s3)] := by
    unfold stepRegister registerManifest
    simp [hv3, hi3, lookupAssoc_cons, hb31, setAssoc, hb31]
  show (list (stepRegister (stepRegister (stepRegister [] s1) s2) s3)).map
      (fun mm => mm.id) = [s1.manifest.id, s3.manifest.id]
  rw [r1, r2, r3]
  rfl

/-- Witness for C5: loading `[alpha, beta, gamma]` where beta's init hook
rejects with `INIT_FAIL` lists exactly `alpha` and `gamma`. -/
theorem loader_isolates_init_failure_witness :
    betaSource.moduleInstance.initOutcome = some "INIT_FAIL"
    ∧ (list (loadBuiltin [] [alphaSource, betaSource, gammaSource])).map
        (fun mm => mm.id) = ["alpha", "gamma"] :=
  ⟨rfl, loader_isolates_init_failure alphaSource betaSource gammaSource "INIT_FAIL"
    (by decide) (by decide) (by decide) rfl rfl rfl (by decide) (by decide)⟩

/-- Counterexample for C5 as stated: in the `ModuleRegistry` variant
(`src/main/modules.ts`) `loadModules` has no per-module catch, so the second
module's rejecting init aborts the loop — afterwards `listModules()`
contains only the first module's id, not the first and third. -/
theorem registry_init_failure_aborts_batch :
    (loadModules (fun _ => "uuid") [regModA, regModB, regModC] emptyMRegistry).2
      = some "INIT_FAIL"
    ∧ (listModules (loadModules (fun _ => "uuid")
        [regModA, regModB, regModC] emptyMRegistry).1).map (fun mm => mm.id)
      = ["m-a"]
    ∧ (["m-a"] : List String) ≠ ["m-a", "m-c"] :=
  ⟨rfl, rfl, by decide⟩

/-- Claim C4 (amended): given an unlocked database (`getDb()` returns a
handle), the `ModuleContext` built by `initialiseModule` holds a usable
storage handle in `db` if and only if the manifest's `capabilities.db` is
truthy; when the capability is not declared the `db` key is still written on
the context object — it merely holds `undefined` — so the field is present
with an undefined value rather than absent. -/
theorem context_db_handle_iff_capability (m : ModuleManifest)
    (dbHandle : Option Unit) (hdb : dbHandle.isSome = true) :
    "db" ∈ (buildModuleContext m dbHandle).keys
    ∧ ((buildModuleContext m dbHandle).db.isSome = true ↔ capDbTruthy m = true) := by
  refine ⟨by simp [buildModuleContext], ?_⟩
  cases hc : capDbTruthy m <;> simp [buildModuleContext, hc, hdb]

/-- Witness for C4: with the database unlocked, a manifest declaring the
storage capability receives a context whose `db` key is present and holds
the handle. -/
theorem context_db_handle_iff_capability_witness :
    (some () : Option Unit).isSome = true
    ∧ "db" ∈ (buildModuleContext storageManifest (some ())).keys
    ∧ ((buildModuleContext storageManifest (some ())).db.isSome = true
        ↔ capDbTruthy storageManifest = true) :=
  ⟨rfl, (context_db_handle_iff_capability storageManifest (some ()) rfl).1,
    (context_db_handle_iff_capability storageManifest (some ()) rfl).2⟩

/-- Counterexample for C4 as stated: for a manifest that declares no storage
capability the context still carries the `db` key — the object literal
writes `db: undefined` — so the storage field is present with an undefined
value, not entirely absent from the context object. -/
theorem context_db_key_present_without_capability :
    capDbTruthy noCapManifest = false
    ∧ "db" ∈ (buildModuleContext noCapManifest (some ())).keys
    ∧ (buildModuleContext noCapManifest (some ())).db = none :=
  ⟨rfl, by decide, rfl⟩

/-- Claim C2 (code bug demonstrated): the UI-boundary settings patch does
not validate. For the demo module (schema: `volume` must be a number) and
the diff `{volume: 'loud'}` the merged object fails validation, and the
Settings-Validator path (`ModuleLoader.patchModuleSettings`) accordingly
rejects it persisting nothing — but the `ghost:patch-module-settings` IPC
handler, whose validation step is an unimplemented TODO, persists the
invalid merged object anyway and reports success, so a subsequent get
returns the invalid object instead of the pre-patch settings. -/
theorem ipc_patch_persists_invalid_merge :
    volumeIsNumber demoSettingsSchema
        (jsSpreadMerge (getModuleSettings [] "demo") [("volume", Json.str "loud")])
      = false
    ∧ patchModuleSettings volumeIsNumber demoRegistry [] "demo"
        [("volume", Json.str "loud")] = Except.error "Invalid settings"
    ∧ ipcPatchModuleSettings [] "demo" [("volume", Json.str "loud")]
        = ([("demo", [("volume", Json.str "loud")])],
           { success := true, error := none })
    ∧ getModuleSettings [("demo", [("volume", Json.str "loud")])] "demo"
        = [("volume", Json.str "loud")] :=
  ⟨rfl, rfl, rfl, rfl⟩

/-- Claim C8 (amended): the two settings-patch paths disagree about modules
without a `settingsSchema`. The UI-boundary IPC handler is permissive — it
persists the raw shallow-merged object and reports success — but the
module-context path (`ModuleLoader.patchModuleSettings`) rejects such a
module with an error before touching the store, persisting nothing. -/
theorem patch_without_schema_divergence (validate : Json → SettingsObj → Bool)
    (reg : LRegistry) (store : SettingsStore) (moduleId : String)
    (diff : SettingsObj) (m : LoadedModule)
    (hm : lookupAssoc reg moduleId = some m)
    (hns : m.manifest.settingsSchema = none) :
    patchModuleSettings validate reg store moduleId diff
      = Except.error ("Module " ++ moduleId ++ " does not have settings schema")
    ∧ ipcPatchModuleSettings store moduleId diff
      = (setAssoc store moduleId
           (jsSpreadMerge (getModuleSettings store moduleId) diff),
         { success := true, error := none }) := by
  constructor
  · simp [patchModuleSettings, hm, hns]
  · rfl

/-- Witness for C8: patching the schema-less `plain` module errors on the
loader path and persists the merged object with success on the IPC path. -/
theorem patch_without_schema_divergence_witness :
    lookupAssoc plainRegistry "plain"
      = some { manifest := noCapManifest, functions := [] }
    ∧ patchModuleSettings (fun _ _ => true) plainRegistry [] "plain"
        [("a", Json.num 1)]
      = Except.error ("Module " ++ "plain" ++ " does not have settings schema")
    ∧ ipcPatchModuleSettings [] "plain" [("a", Json.num 1)]
      = (setAssoc [] "plain"
           (jsSpreadMerge (getModuleSettings [] "plain") [("a", Json.num 1)]),
         { success := true, error := none }) :=
  ⟨rfl,
   (patch_without_schema_divergence (fun _ _ => true) plainRegistry [] "plain"
     [("a", Json.num 1)] { manifest := noCapManifest, functions := [] } rfl rfl).1,
   (patch_without_schema_divergence (fun _ _ => true) plainRegistry [] "plain"
     [("a", Json.num 1)] { manifest := noCapManifest, functions := [] } rfl rfl).2⟩

/-- Counterexample for C8 as stated: for the registered module `plain`,
which declares no `settingsSchema`, the module-context patch does not
succeed — `patchModuleSettings` throws `Module plain does not have settings
schema` and nothing reaches the store. -/
theorem loader_patch_without_schema_errors :
    patchModuleSettings (fun _ _ => true) plainRegistry [] "plain"
        [("a", Json.num 1)]
      = Except.error "Module plain does not have settings schema" :=
  rfl

/-- Witness for C10: a module object with no id at all registers under the
freshly generated UUID and is listed under it. -/
theorem register_module_generates_uuid_for_missing_id_witness :
    jsTruthyId anonModule.id = false
    ∧ ∃ reg', registerModule "generated-uuid-1" emptyMRegistry anonModule
        = Except.ok reg'
      ∧ lookupAssoc reg'.modules "generated-uuid-1"
          = some { anonModule with id := some "generated-uuid-1" }
      ∧ ({ id := "generated-uuid-1", title := anonModule.meta.title,
            icon := anonModule.meta.icon } : MMetaEntry) ∈ listModules reg' :=
  ⟨rfl, register_module_generates_uuid_for_missing_id "generated-uuid-1"
    emptyMRegistry anonModule rfl rfl⟩
